import Mathlib

/-!
Verification of the documentation build configuration `docs/conf.py`.

The file is a Sphinx configuration module: a sequence of top-level
assignment statements binding literal values, followed by one function
definition `setup(app)` that registers a stylesheet with the build app.
We embed the module as a list of assignment statements interpreted over
a Python-style namespace (an insertion-ordered association list), and
embed `setup` as a function on a model of the external build app object.
-/

/-- Scalar Python values occurring in the configuration file. -/
inductive Scalar where
  | str (s : String)
  | bool (b : Bool)
  | int (n : Int)
  | none
deriving DecidableEq, Repr

/-- Values bound by the configuration module: scalars, lists of strings,
dictionaries with scalar values, dictionaries whose values are pairs of a
string and an optional string (the `intersphinx_mapping` shape), and
function objects (bound by `def`). -/
inductive PyVal where
  | scalar (v : Scalar)
  | strList (xs : List String)
  | dict (entries : List (String × Scalar))
  | pairDict (entries : List (String × (String × Option String)))
  | func (fname : String)
deriving DecidableEq, Repr

/-- A module namespace: insertion-ordered bindings, as in a Python module
dictionary. -/
abbrev Namespace := List (String × PyVal)

/-- Bind `k` to `v`: overwrite in place when `k` is already bound (keeping
its position, as Python dictionaries do), otherwise append. -/
def setVar : Namespace → String → PyVal → Namespace
  | [], k, v => [(k, v)]
  | (k0, v0) :: rest, k, v =>
    if k0 = k then (k, v) :: rest else (k0, v0) :: setVar rest k v

/-- Look a name up in a namespace. -/
def lookupVar : Namespace → String → Option PyVal
  | [], _ => Option.none
  | (k0, v0) :: rest, k => if k0 = k then some v0 else lookupVar rest k

/-- The external world an evaluation could consult (environment
variables).  `docs/conf.py` never reads it. -/
abbrev World := List (String × String)

/-- Right-hand sides of module statements: literals, name references, and
environment reads.  Every right-hand side in `docs/conf.py` is a literal. -/
inductive Expr where
  | lit (v : PyVal)
  | name (n : String)
  | getenv (k : String)
deriving DecidableEq, Repr

/-- Expression evaluation: a literal evaluates to itself, a name reference
fails when unbound, an environment read consults the world. -/
def evalExpr (w : World) (ns : Namespace) : Expr → Except String PyVal
  | .lit v => .ok v
  | .name n =>
    match lookupVar ns n with
    | some v => .ok v
    | Option.none => .error ("NameError: " ++ n)
  | .getenv k =>
    match w.lookup k with
    | some s => .ok (.scalar (.str s))
    | Option.none => .ok (.scalar .none)

/-- A top-level module statement: an assignment of an expression to a
name.  A `def f(...)` statement is the assignment of the function object
to the name `f`. -/
inductive Stmt where
  | assign (target : String) (rhs : Expr)
deriving DecidableEq, Repr

/-- The name a statement binds. -/
def Stmt.target2 : Stmt → String
  | .assign t _ => t

/-- Evaluate a list of statements in order, threading the namespace. -/
def evalStmts (w : World) : List Stmt → Namespace → Except String Namespace
  | [], ns => .ok ns
  | .assign t e :: rest, ns =>
    match evalExpr w ns e with
    | .ok v => evalStmts w rest (setVar ns t v)
    | .error msg => .error msg

/-- The module body of `docs/conf.py`, statement by statement in source
order.  The final `def setup(app)` binds the function object to the name
`setup`. -/
def confPy : List Stmt :=
  [ .assign "project" (.lit (.scalar (.str "Lankir"))),
    .assign "copyright" (.lit (.scalar (.str "2025, Lankir Contributors"))),
    .assign "author" (.lit (.scalar (.str "Lankir Contributors"))),
    .assign "version" (.lit (.scalar (.str "0.1"))),
    .assign "release" (.lit (.scalar (.str "0.1.1"))),
    .assign "extensions" (.lit (.strList
      [ "sphinx.ext.autodoc", "sphinx.ext.viewcode", "sphinx.ext.napoleon",
        "sphinx.ext.intersphinx", "sphinx_copybutton", "sphinx_design",
        "myst_parser" ])),
    .assign "templates_path" (.lit (.strList ["_templates"])),
    .assign "exclude_patterns" (.lit (.strList
      ["_build", "Thumbs.db", ".DS_Store", "README.md"])),
    .assign "html_theme" (.lit (.scalar (.str "sphinx_rtd_theme"))),
    .assign "html_static_path" (.lit (.strList ["_static"])),
    .assign "html_logo" (.lit (.scalar (.str "_static/logo.png"))),
    .assign "html_favicon" (.lit (.scalar (.str "_static/favicon.ico"))),
    .assign "html_title" (.lit (.scalar (.str "Lankir Documentation"))),
    .assign "html_theme_options" (.lit (.dict
      [ ("logo_only", .bool false),
        ("display_version", .bool true),
        ("prev_next_buttons_location", .str "bottom"),
        ("style_external_links", .bool true),
        ("collapse_navigation", .bool false),
        ("sticky_navigation", .bool true),
        ("navigation_depth", .int 4),
        ("includehidden", .bool true),
        ("titles_only", .bool false) ])),
    .assign "html_context" (.lit (.dict
      [ ("display_github", .bool true),
        ("github_user", .str "Matbe34"),
        ("github_repo", .str "lankir"),
        ("github_version", .str "main"),
        ("conf_py_path", .str "/docs/") ])),
    .assign "myst_enable_extensions" (.lit (.strList
      [ "colon_fence", "deflist", "tasklist", "fieldlist",
        "attrs_inline", "attrs_block" ])),
    .assign "myst_heading_anchors" (.lit (.scalar (.int 3))),
    .assign "intersphinx_mapping" (.lit (.pairDict
      [ ("python", ("https://docs.python.org/3", Option.none)) ])),
    .assign "source_suffix" (.lit (.dict
      [ (".rst", .str "restructuredtext"), (".md", .str "markdown") ])),
    .assign "pygments_style" (.lit (.scalar (.str "monokai"))),
    .assign "pygments_dark_style" (.lit (.scalar (.str "monokai"))),
    .assign "copybutton_prompt_text"
      (.lit (.scalar (.str ">>> |\\.\\.\\. |\\$ |> "))),
    .assign "copybutton_prompt_is_regexp" (.lit (.scalar (.bool true))),
    .assign "setup" (.lit (.func "setup")) ]

/-- Load the module: evaluate its body from an empty namespace in world
`w`. -/
def loadConf (w : World) : Except String Namespace :=
  evalStmts w confPy []

/-- The namespace the module evaluates to. -/
def lankirNs : Namespace :=
  match loadConf [] with
  | .ok ns => ns
  | .error _ => []

/-- Model of the external Sphinx build app object, restricted to the
asset registries `setup` could touch.  `has_add_css_file` records whether
the duck-typed object provides the `add_css_file` method. -/
structure App where
  css_files : List String
  js_files : List String
  has_add_css_file : Bool
deriving DecidableEq, Repr

/-- The app method `add_css_file`: appends the file to the registered
stylesheets, or raises when the object does not provide the method. -/
def App.add_css_file (app : App) (filename : String) : Except String App :=
  if app.has_add_css_file then
    .ok { app with css_files := app.css_files ++ [filename] }
  else
    .error "AttributeError: add_css_file"

/-- The `setup(app)` hook of `docs/conf.py`: its body is the single call
`app.add_css_file('custom.css')`. -/
def setup (app : App) : Except String App :=
  app.add_css_file "custom.css"

/-- Running `setup` together with the module namespace.  The body of
`setup` contains no `global` statement and assigns no module name, so the
namespace is passed through unchanged. -/
def setupOnModule (ns : Namespace) (app : App) :
    Except String (Namespace × App) :=
  (setup app).map (fun a => (ns, a))

/-- Split a regular-expression pattern built from literal characters,
backslash escapes and top-level alternation bars into the list of its
literal alternative branches (models the fragment of regular-expression
syntax that `copybutton_prompt_text` uses). -/
def splitAlts : List Char → List Char → List (List Char)
  | [], acc => [acc.reverse]
  | '\\' :: c :: rest, acc => splitAlts rest (c :: acc)
  | '|' :: rest, acc => acc.reverse :: splitAlts rest []
  | c :: rest, acc => splitAlts rest (c :: acc)

/-- The literal alternatives of an escape-and-alternation pattern. -/
def regexAlts (p : String) : List String :=
  (splitAlts p.toList []).map (fun cs => String.mk cs)

/-- Whether an escape-and-alternation pattern matches a whole string. -/
def regexMatchesStr (p s : String) : Bool :=
  (regexAlts p).contains s

/-- Claim C1: for every build app object that provides `add_css_file`,
`setup(app)` performs the single call `add_css_file('custom.css')`,
appending exactly the one stylesheet `custom.css` to the stylesheet
registry and changing nothing else; every invocation registers the same
asset. -/
theorem C1_setup_registers_single_css (app : App)
    (h : app.has_add_css_file = true) :
    setup app =
      Except.ok { app with css_files := app.css_files ++ ["custom.css"] } := by
  simp [setup, App.add_css_file, h]

/-- Witness for C1 at a concrete app object. -/
theorem C1_setup_registers_single_css_witness :
    setup ⟨["pygments.css"], ["theme.js"], true⟩ =
      Except.ok ⟨["pygments.css", "custom.css"], ["theme.js"], true⟩ :=
  C1_setup_registers_single_css ⟨["pygments.css"], ["theme.js"], true⟩ rfl

/-- Claim C2: evaluating the configuration module is deterministic and
depends on no input (the result is the same in every world), and a second
load — even re-evaluating the body over the namespace the first load
produced — yields bindings identical to the first. -/
theorem C2_load_deterministic_idempotent :
    (∀ w1 w2 : World, loadConf w1 = loadConf w2) ∧
    (∀ w : World, loadConf w = Except.ok lankirNs ∧
      evalStmts w confPy lankirNs = Except.ok lankirNs) :=
  ⟨fun _ _ => rfl, fun _ => ⟨rfl, rfl⟩⟩

/-- Claim C3: the module body assigns exactly these names, each exactly
once (the target list has no duplicate, so no name is rebound or
mutated), and running `setup(app)` leaves the module namespace — hence
every configuration field — unchanged. -/
theorem C3_fields_assigned_once_setup_frame :
    confPy.map Stmt.target2 =
      ["project", "copyright", "author", "version", "release", "extensions",
       "templates_path", "exclude_patterns", "html_theme", "html_static_path",
       "html_logo", "html_favicon", "html_title", "html_theme_options",
       "html_context", "myst_enable_extensions", "myst_heading_anchors",
       "intersphinx_mapping", "source_suffix", "pygments_style",
       "pygments_dark_style", "copybutton_prompt_text",
       "copybutton_prompt_is_regexp", "setup"] ∧
    (confPy.map Stmt.target2).Nodup ∧
    (∀ (ns : Namespace) (app : App), app.has_add_css_file = true →
      setupOnModule ns app =
        Except.ok
          (ns, { app with css_files := app.css_files ++ ["custom.css"] })) := by
  refine ⟨rfl, by decide, ?_⟩
  intro ns app h
  simp [setupOnModule, setup, App.add_css_file, h, Except.map]

/-- Witness for C3 at a concrete namespace and app object. -/
theorem C3_fields_assigned_once_setup_frame_witness :
    setupOnModule [("project", PyVal.scalar (Scalar.str "Lankir"))]
        ⟨[], [], true⟩ =
      Except.ok ([("project", PyVal.scalar (Scalar.str "Lankir"))],
        ⟨["custom.css"], [], true⟩) :=
  C3_fields_assigned_once_setup_frame.2.2
    [("project", PyVal.scalar (Scalar.str "Lankir"))] ⟨[], [], true⟩ rfl

/-- Claim C4: in every world, loading the module completes without an
error, and for every app object that provides `add_css_file` the
`setup(app)` call also completes without an error. -/
theorem C4_no_error_on_load_or_setup (w : World) (app : App)
    (h : app.has_add_css_file = true) :
    (∃ ns, loadConf w = Except.ok ns) ∧
    (∃ a2, setup app = Except.ok a2) :=
  ⟨⟨lankirNs, rfl⟩,
   ⟨{ app with css_files := app.css_files ++ ["custom.css"] },
    by simp [setup, App.add_css_file, h]⟩⟩

/-- Witness for C4 at a concrete world and app object. -/
theorem C4_no_error_on_load_or_setup_witness :
    (∃ ns, loadConf [("HOME", "/root")] = Except.ok ns) ∧
    (∃ a2, setup ⟨[], [], true⟩ = Except.ok a2) :=
  C4_no_error_on_load_or_setup [("HOME", "/root")] ⟨[], [], true⟩ rfl

/-- Claim C5: after loading, `extensions` is bound to exactly this
ordered list of plugin-name strings. -/
theorem C5_extensions_exact_list :
    lookupVar lankirNs "extensions" =
      some (.strList
        ["sphinx.ext.autodoc", "sphinx.ext.viewcode", "sphinx.ext.napoleon",
         "sphinx.ext.intersphinx", "sphinx_copybutton", "sphinx_design",
         "myst_parser"]) := rfl

/-- Claim C6: after loading, `source_suffix` is a mapping with exactly
the two keys `.rst` and `.md`, bound to `restructuredtext` and
`markdown` respectively, and no other key. -/
theorem C6_source_suffix_exact_mapping :
    lookupVar lankirNs "source_suffix" =
      some (.dict
        [(".rst", .str "restructuredtext"), (".md", .str "markdown")]) := rfl

/-- Claim C7: after loading, `intersphinx_mapping` contains exactly one
entry: the key `python` mapped to the pair of the Python documentation
URL and `None`. -/
theorem C7_intersphinx_single_target :
    lookupVar lankirNs "intersphinx_mapping" =
      some (.pairDict
        [("python", ("https://docs.python.org/3", Option.none))]) := rfl

/-- Claim C8: the bound version string `0.1` is a proper prefix of the
bound release string `0.1.1`: the release extends the version with the
additional patch component `.1`. -/
theorem C8_version_proper_prefix_of_release :
    lookupVar lankirNs "version" = some (.scalar (.str "0.1")) ∧
    lookupVar lankirNs "release" = some (.scalar (.str "0.1.1")) ∧
    "0.1.1" = "0.1" ++ ".1" ∧ ("0.1" : String) ≠ "0.1.1" :=
  ⟨rfl, rfl, rfl, by decide⟩

/-- Claim C9: the module binds `copybutton_prompt_is_regexp` to `True`
and `copybutton_prompt_text` to the escape-and-alternation pattern whose
literal alternatives are exactly the four prompt prefixes, so the
pattern matches each of them. -/
theorem C9_copybutton_prompt_options :
    lookupVar lankirNs "copybutton_prompt_is_regexp" =
      some (.scalar (.bool true)) ∧
    lookupVar lankirNs "copybutton_prompt_text" =
      some (.scalar (.str ">>> |\\.\\.\\. |\\$ |> ")) ∧
    regexAlts ">>> |\\.\\.\\. |\\$ |> " = [">>> ", "... ", "$ ", "> "] ∧
    regexMatchesStr ">>> |\\.\\.\\. |\\$ |> " ">>> " = true ∧
    regexMatchesStr ">>> |\\.\\.\\. |\\$ |> " "... " = true ∧
    regexMatchesStr ">>> |\\.\\.\\. |\\$ |> " "$ " = true ∧
    regexMatchesStr ">>> |\\.\\.\\. |\\$ |> " "> " = true :=
  ⟨rfl, rfl, by decide, by decide, by decide, by decide, by decide⟩

/-- Claim C10: each list-valued configuration field is bound to a list of
strings with no duplicate entry, `myst_parser` is a member of
`extensions`, and `source_suffix` declares the `markdown` dialect for
`.md` — so the declared dialect has its parser plugin activated. -/
theorem C10_list_fields_wellformed :
    (lookupVar lankirNs "extensions" =
      some (.strList
        ["sphinx.ext.autodoc", "sphinx.ext.viewcode", "sphinx.ext.napoleon",
         "sphinx.ext.intersphinx", "sphinx_copybutton", "sphinx_design",
         "myst_parser"]) ∧
     List.Nodup
        ["sphinx.ext.autodoc", "sphinx.ext.viewcode", "sphinx.ext.napoleon",
         "sphinx.ext.intersphinx", "sphinx_copybutton", "sphinx_design",
         "myst_parser"] ∧
     "myst_parser" ∈
        ["sphinx.ext.autodoc", "sphinx.ext.viewcode", "sphinx.ext.napoleon",
         "sphinx.ext.intersphinx", "sphinx_copybutton", "sphinx_design",
         "myst_parser"]) ∧
    (lookupVar lankirNs "templates_path" = some (.strList ["_templates"]) ∧
     List.Nodup ["_templates"]) ∧
    (lookupVar lankirNs "exclude_patterns" =
      some (.strList ["_build", "Thumbs.db", ".DS_Store", "README.md"]) ∧
     List.Nodup ["_build", "Thumbs.db", ".DS_Store", "README.md"]) ∧
    (lookupVar lankirNs "html_static_path" = some (.strList ["_static"]) ∧
     List.Nodup ["_static"]) ∧
    (lookupVar lankirNs "myst_enable_extensions" =
      some (.strList
        ["colon_fence", "deflist", "tasklist", "fieldlist",
         "attrs_inline", "attrs_block"]) ∧
     List.Nodup
        ["colon_fence", "deflist", "tasklist", "fieldlist",
         "attrs_inline", "attrs_block"]) ∧
    lookupVar lankirNs "source_suffix" =
      some (.dict
        [(".rst", .str "restructuredtext"), (".md", .str "markdown")]) :=
  ⟨⟨rfl, by decide, by decide⟩, ⟨rfl, by decide⟩, ⟨rfl, by decide⟩,
   ⟨rfl, by decide⟩, ⟨rfl, by decide⟩, rfl⟩
